import Mathlib

/-!
A shallow embedding of the `zhenren` edge API (src/api/index.ts,
src/api/documents.ts, src/api/search.ts): a request router and two
handlers over three external stores (embedding provider, vector index,
relational store).

Modelling conventions:
* Numeric payloads that the code never computes with (embedding vector
  components, similarity scores) are carried as `Int`; no claim depends
  on their floating-point arithmetic.
* The external services are modelled by oracle inputs per request
  (`Ext`): the embedding provider's reply, the fresh UUID, the wall
  clock, and the similarity ranking the vector index would compute.
* A handler that would raise a JavaScript exception (the only such site
  in scope is `request.json()` on a malformed body) returns
  `Except.error ()`; the router's try/catch is `applyCors`.
* JavaScript `parseInt` (radix unspecified) is modelled by `jsParseInt`,
  with `none` standing for `NaN`; `Math.min (NaN, 20)` is `NaN`, hence
  `Option.map (min . 20)`.
-/

namespace Zhenren

/-- A row of the D1 `documents` table, as inserted by `handleDocuments`. -/
structure Row where
  id : String
  title : String
  content : String
  vector_id : String
  created : Int
  deriving Repr, DecidableEq

/-- A listing entry: `SELECT id, title, created` (content omitted). -/
structure DocSummary where
  id : String
  title : String
  created : Int
  deriving Repr, DecidableEq

/-- One shaped search result returned by `handleSearch`. -/
structure SearchResult where
  id : String
  title : String
  similarity : Int
  deriving Repr, DecidableEq

/-- An entry of the Vectorize index as upserted by `handleDocuments`. -/
structure VecEntry where
  id : String
  values : List Int
  metaTitle : String
  deriving Repr, DecidableEq

/-- A match produced by a Vectorize similarity query; `metaTitle` is the
optional `metadata.title` field. -/
structure VecMatch where
  id : String
  score : Int
  metaTitle : Option String
  deriving Repr, DecidableEq

/-- Denotation of a response body. JSON bodies are kept structured
rather than serialised, since the claims compare their shapes. -/
inductive Body where
  | empty : Body
  | text : String → Body
  | jsonError : String → Body
  | jsonDoc : String → String → String → Body
  | jsonRow : Row → Body
  | jsonDocList : List DocSummary → Body
  | jsonSearch : String → List SearchResult → Body
  deriving Repr, DecidableEq

/-- An HTTP response: status, headers (ordered list), body. -/
structure Response where
  status : Nat
  headers : List (String × String)
  body : Body
  deriving Repr, DecidableEq

/-- An HTTP request as the worker sees it: method, URL path, query
parameters, and — for POST /api/documents — the result of
`request.json()` (`none` models a body on which JSON parsing throws). -/
structure Req where
  method : String
  path : String
  query : List (String × String)
  jsonBody : Option (String × String)
  deriving Repr, DecidableEq

/-- The persistent state of the two stores: the Vectorize index and the
D1 `documents` table (rows in insertion order). -/
structure Store where
  vectors : List VecEntry
  rows : List Row
  deriving Repr, DecidableEq

/-- Observable calls to the external services, in program order. -/
inductive Effect where
  | aiRun : String → String → Effect
  | vecUpsert : String → List Int → String → Effect
  | dbInsert : Row → Effect
  | vecQuery : List Int → Option Int → Effect
  | dbSelectById : String → Effect
  | dbList : Effect
  deriving Repr, DecidableEq

/-- Per-request oracles for the external world: `aiData` is the `data`
field of the embedding provider's reply (`none` models an absent/null
field), `freshId` is `crypto.randomUUID()`, `now` is
`Math.floor(Date.now() / 1000)`, and `ranking` is the similarity
ordering the Vectorize index would compute for the query vector
(floating-point arithmetic owned by the external service). -/
structure Ext where
  aiData : Option (List (List Int))
  freshId : String
  now : Int
  ranking : List VecMatch
  deriving Repr, DecidableEq

/-- The model identifier passed to `env.AI.run`. -/
def aiModel : String := "@cf/baai/bge-base-en-v1.5"

/-- JavaScript `s.split('/')` on the character list: splitting the empty
string gives one empty segment. -/
def splitSlash : List Char → List (List Char)
  | [] => [[]]
  | c :: t =>
    if c = '/' then [] :: splitSlash t
    else
      match splitSlash t with
      | s :: rest => (c :: s) :: rest
      | [] => [[c]]

/-- `path.split('/')` as a list of strings. -/
def pathParts (s : String) : List String :=
  (splitSlash s.data).map String.mk

/-- JavaScript `s.startsWith(pre)`. -/
def strStartsWith (s pre : String) : Bool :=
  strStartsWithGo pre.data s.data
where
  strStartsWithGo : List Char → List Char → Bool
    | [], _ => true
    | _ :: _, [] => false
    | p :: ps, c :: cs => decide (p = c) && strStartsWithGo ps cs

/-- Default headers of `Response.json`. -/
def jsonCT : List (String × String) := [("Content-Type", "application/json")]

/-- Default headers of `new Response(text)`. -/
def textCT : List (String × String) := [("Content-Type", "text/plain;charset=UTF-8")]

/-- `Headers.set`: replace the value under an existing name, else append. -/
def setHeader (hs : List (String × String)) (k v : String) : List (String × String) :=
  if hs.any (fun p => p.1 = k) then hs.map (fun p => if p.1 = k then (k, v) else p)
  else hs ++ [(k, v)]

/-- `Headers.get`: first value under the name, if any. -/
def getHeader (hs : List (String × String)) (k : String) : Option String :=
  (hs.find? (fun p => p.1 = k)).map (fun p => p.2)

/-- The router's `corsHeaders` object. -/
def corsHeaders : List (String × String) :=
  [("Access-Control-Allow-Origin", "*"),
   ("Access-Control-Allow-Methods", "GET, POST, OPTIONS"),
   ("Access-Control-Allow-Headers", "Content-Type")]

/-- The loop `Object.entries(corsHeaders).forEach((k, v) => headers.set(k, v))`. -/
def withCors (hs : List (String × String)) : List (String × String) :=
  setHeader (setHeader (setHeader hs
    "Access-Control-Allow-Origin" "*")
    "Access-Control-Allow-Methods" "GET, POST, OPTIONS")
    "Access-Control-Allow-Headers" "Content-Type"

/-- `url.searchParams.get`: first value of the parameter, `null` if absent. -/
def getParam (q : List (String × String)) (k : String) : Option String :=
  (q.find? (fun p => p.1 = k)).map (fun p => p.2)

/-- Value of a hexadecimal digit, `none` for a non-digit. -/
def hexDigitVal (c : Char) : Option Nat :=
  if c.isDigit then some (c.toNat - 48)
  else if 'a' ≤ c ∧ c ≤ 'f' then some (c.toNat - 87)
  else if 'A' ≤ c ∧ c ≤ 'F' then some (c.toNat - 55)
  else none

/-- Value of a run of decimal digits. -/
def decValue (cs : List Char) : Nat :=
  cs.foldl (fun a c => a * 10 + (c.toNat - 48)) 0

/-- Value of a run of hexadecimal digits. -/
def hexValue (cs : List Char) : Nat :=
  cs.foldl (fun a c => a * 16 + (hexDigitVal c).getD 0) 0

/-- Parse the longest leading run of decimal digits; `none` (NaN) if empty. -/
def parseDecimal (sign : Int) (cs : List Char) : Option Int :=
  let ds := cs.takeWhile (fun c => c.isDigit)
  if ds.isEmpty then none else some (sign * (decValue ds : Nat))

/-- JavaScript `parseInt(s)` with the radix argument omitted: skip
leading whitespace, optional sign, `0x`/`0X` selects base 16, then the
longest leading digit run; `none` models `NaN`. -/
def jsParseInt (s : String) : Option Int :=
  let cs := s.toList.dropWhile (fun c => c.isWhitespace)
  match cs with
  | '-' :: t => jsParseIntBody (-1) t
  | '+' :: t => jsParseIntBody 1 t
  | t => jsParseIntBody 1 t
where
  jsParseIntBody (sign : Int) (cs : List Char) : Option Int :=
    match cs with
    | '0' :: x :: t =>
      if x = 'x' ∨ x = 'X' then
        let ds := t.takeWhile (fun c => (hexDigitVal c).isSome)
        if ds.isEmpty then none else some (sign * (hexValue ds : Nat))
      else parseDecimal sign ('0' :: x :: t)
    | t => parseDecimal sign t

/-- The handler's `url.searchParams.get("limit") || "10"`: JavaScript
treats both `null` and the empty string as falsy. -/
def limitRaw (qs : List (String × String)) : String :=
  match getParam qs "limit" with
  | none => "10"
  | some s => if s = "" then "10" else s

/-- The `topK` argument of the Vectorize query:
`Math.min(parseInt(limit), 20)`, where `none` models `NaN`
(`Math.min(NaN, 20)` is `NaN`). -/
def searchTopK (qs : List (String × String)) : Option Int :=
  (jsParseInt (limitRaw qs)).map (fun n => min n 20)

/-- `VECTORS.query(vector, topK)`: the external index returns its
ranking truncated to `topK` matches. `none` (`topK = NaN`) is outside
the service's contract; no claim depends on its result, only on the
recorded call. -/
def vectorizeQuery (ranking : List VecMatch) (topK : Option Int) : List VecMatch :=
  match topK with
  | some k => ranking.take k.toNat
  | none => []

/-- `ORDER BY created DESC` comparison on rows. -/
def byCreatedDesc (a b : Row) : Prop := b.created ≤ a.created

instance : DecidableRel byCreatedDesc :=
  fun a b => inferInstanceAs (Decidable (b.created ≤ a.created))

instance : IsTotal Row byCreatedDesc :=
  ⟨fun a b => le_total b.created a.created⟩

instance : IsTrans Row byCreatedDesc :=
  ⟨fun _ _ _ h h2 => le_trans h2 h⟩

/-- Projection `SELECT id, title, created`. -/
def toSummary (r : Row) : DocSummary :=
  { id := r.id, title := r.title, created := r.created }

/-- `SELECT id, title, created FROM documents ORDER BY created DESC LIMIT 50`. -/
def listDocs (rows : List Row) : List DocSummary :=
  ((List.insertionSort byCreatedDesc rows).take 50).map toSummary

/-- src/api/documents.ts `handleDocuments`. -/
def handleDocuments (req : Req) (ext : Ext) (store : Store) :
    Except Unit (Response × Store × List Effect) :=
  let path := req.path
  let method := req.method
  if path = "/api/documents" ∧ method = "POST" then
    match req.jsonBody with
    | none => .error ()
    | some (title, content) =>
      let id := ext.freshId
      let effs := [Effect.aiRun aiModel content]
      match ext.aiData with
      | some (v :: _) =>
        let row : Row :=
          { id := id, title := title, content := content, vector_id := id, created := ext.now }
        .ok ({ status := 200, headers := jsonCT, body := .jsonDoc id title content },
             { vectors := store.vectors ++ [{ id := id, values := v, metaTitle := title }],
               rows := store.rows ++ [row] },
             effs ++ [.vecUpsert id v title, .dbInsert row])
      | _ =>
        .ok ({ status := 500, headers := jsonCT, body := .jsonError "Failed to generate embedding" },
             store, effs)
  else if strStartsWith path "/api/documents/" ∧ method = "GET" then
    let id := (pathParts path).getD 3 ""
    match store.rows.find? (fun r => r.id = id) with
    | some row =>
      .ok ({ status := 200, headers := jsonCT, body := .jsonRow row }, store, [.dbSelectById id])
    | none =>
      .ok ({ status := 404, headers := textCT, body := .text "Not Found" }, store, [.dbSelectById id])
  else if path = "/api/documents" ∧ method = "GET" then
    .ok ({ status := 200, headers := jsonCT, body := .jsonDocList (listDocs store.rows) },
         store, [.dbList])
  else
    .ok ({ status := 405, headers := textCT, body := .text "Method not allowed" }, store, [])

/-- Result shaping: `results.matches.map(...)`, with the `"Untitled"`
fallback for an absent (or falsy, i.e. empty) metadata title. -/
def formatResults (ms : List VecMatch) : List SearchResult :=
  ms.map (fun m =>
    { id := m.id,
      title := match m.metaTitle with
               | none => "Untitled"
               | some t => if t = "" then "Untitled" else t,
      similarity := m.score })

/-- src/api/search.ts `handleSearch`. -/
def handleSearch (req : Req) (ext : Ext) (store : Store) :
    Except Unit (Response × Store × List Effect) :=
  if req.method ≠ "GET" then
    .ok ({ status := 405, headers := textCT, body := .text "Method not allowed" }, store, [])
  else
    match getParam req.query "q" with
    | none =>
      .ok ({ status := 400, headers := jsonCT, body := .jsonError "Missing query parameter" },
           store, [])
    | some q =>
      if q = "" then
        .ok ({ status := 400, headers := jsonCT, body := .jsonError "Missing query parameter" },
             store, [])
      else
        match ext.aiData with
        | some (v :: _) =>
          let topK : Option Int := searchTopK req.query
          .ok ({ status := 200, headers := jsonCT,
                 body := .jsonSearch q (formatResults (vectorizeQuery ext.ranking topK)) },
               store, [.aiRun aiModel q, .vecQuery v topK])
        | _ =>
          .ok ({ status := 500, headers := jsonCT, body := .jsonError "Failed to generate embedding" },
               store, [.aiRun aiModel q])

/-- The condition `!embedding.data || !embedding.data[0]`: the `data`
field is absent, or it is an empty array (so `data[0]` is undefined). -/
def embedFailed (d : Option (List (List Int))) : Prop :=
  d = none ∨ d = some []

/-- The external calls a handler performed (none when it threw before
reaching any, as is the case at the one modelled throw site). -/
def effectsOf (r : Except Unit (Response × Store × List Effect)) : List Effect :=
  match r with
  | .ok (_, _, effs) => effs
  | .error () => []

/-- The router's switch over the path (src/api/index.ts, lines 33-42). -/
def routed (req : Req) (ext : Ext) (store : Store) :
    Except Unit (Response × Store × List Effect) :=
  if strStartsWith req.path "/api/documents" then handleDocuments req ext store
  else if req.path = "/api/search" then handleSearch req ext store
  else .ok ({ status := 404, headers := textCT, body := .text "Not Found" }, store, [])

/-- The router's try/catch plus the CORS-header merge: a handler result
gets the three headers set; an exception becomes the generic 500 with
the same headers. -/
def applyCors (r : Except Unit (Response × Store × List Effect)) (store : Store) :
    Response × Store × List Effect :=
  match r with
  | .ok (resp, store2, effs) =>
    ({ status := resp.status, headers := withCors resp.headers, body := resp.body }, store2, effs)
  | .error () =>
    ({ status := 500, headers := withCors jsonCT, body := .jsonError "Internal server error" },
     store, [])

/-- src/api/index.ts `fetch`: OPTIONS short-circuit, then dispatch with
CORS merge and top-level catch. -/
def fetch (req : Req) (ext : Ext) (store : Store) : Response × Store × List Effect :=
  if req.method = "OPTIONS" then
    ({ status := 200, headers := corsHeaders, body := .empty }, store, [])
  else
    applyCors (routed req ext store) store

/-! ### Header-merge lemmas -/

theorem find?_setHeader_map (k v : String) :
    ∀ l : List (String × String),
      l.any (fun p => p.1 = k) = true →
      (l.map (fun p => if p.1 = k then (k, v) else p)).find? (fun p => p.1 = k) = some (k, v)
  | [], h => by simp at h
  | a :: t, h => by
    by_cases ha : a.1 = k
    · simp [ha, List.find?_cons_of_pos]
    · have ht : t.any (fun p => p.1 = k) = true := by simpa [ha] using h
      simpa [ha, List.find?_cons_of_neg] using find?_setHeader_map k v t ht

theorem find?_setHeader_map_ne (k k2 v : String) (hne : k ≠ k2) :
    ∀ l : List (String × String),
      (l.map (fun p => if p.1 = k2 then (k2, v) else p)).find? (fun p => p.1 = k) =
        l.find? (fun p => p.1 = k)
  | [] => by simp
  | a :: t => by
    by_cases ha : a.1 = k2
    · rw [List.map_cons, if_pos ha]
      rw [List.find?_cons_of_neg _
            (by simp only [decide_eq_true_eq]; exact fun h => hne h.symm),
          List.find?_cons_of_neg _
            (by simp only [ha, decide_eq_true_eq]; exact fun h => hne h.symm),
          find?_setHeader_map_ne k k2 v hne t]
    · rw [List.map_cons, if_neg ha]
      by_cases hk : a.1 = k
      · rw [List.find?_cons_of_pos _ (by simpa using hk),
            List.find?_cons_of_pos _ (by simpa using hk)]
      · rw [List.find?_cons_of_neg _ (by simpa using hk),
            List.find?_cons_of_neg _ (by simpa using hk),
            find?_setHeader_map_ne k k2 v hne t]

theorem getHeader_setHeader_self (hs : List (String × String)) (k v : String) :
    getHeader (setHeader hs k v) k = some v := by
  unfold getHeader setHeader
  split
  · rename_i h
    rw [find?_setHeader_map k v hs h]
    rfl
  · rename_i h
    rw [List.find?_append]
    have hnone : hs.find? (fun p => p.1 = k) = none := by
      rw [List.find?_eq_none]
      intro x hx
      intro hpx
      exact h (List.any_eq_true.mpr ⟨x, hx, hpx⟩)
    rw [hnone]
    simp

theorem getHeader_setHeader_ne (hs : List (String × String)) (k k2 v : String) (hne : k ≠ k2) :
    getHeader (setHeader hs k2 v) k = getHeader hs k := by
  unfold getHeader setHeader
  split
  · rw [find?_setHeader_map_ne k k2 v hne hs]
  · rw [List.find?_append]
    have : List.find? (fun p => p.1 = k) [(k2, v)] = none := by
      rw [List.find?_cons_of_neg _
            (by simp only [decide_eq_true_eq]; exact fun h => hne h.symm)]
      rfl
    rw [this, Option.or_none]

theorem getHeader_withCors_origin (hs : List (String × String)) :
    getHeader (withCors hs) "Access-Control-Allow-Origin" = some "*" := by
  unfold withCors
  rw [getHeader_setHeader_ne _ _ _ _ (by decide),
      getHeader_setHeader_ne _ _ _ _ (by decide),
      getHeader_setHeader_self]

theorem getHeader_withCors_methods (hs : List (String × String)) :
    getHeader (withCors hs) "Access-Control-Allow-Methods" = some "GET, POST, OPTIONS" := by
  unfold withCors
  rw [getHeader_setHeader_ne _ _ _ _ (by decide),
      getHeader_setHeader_self]

theorem getHeader_withCors_allowed (hs : List (String × String)) :
    getHeader (withCors hs) "Access-Control-Allow-Headers" = some "Content-Type" := by
  unfold withCors
  rw [getHeader_setHeader_self]

theorem applyCors_headers_shape (r : Except Unit (Response × Store × List Effect)) (store : Store) :
    ∃ hs, (applyCors r store).1.headers = withCors hs := by
  match r with
  | .ok (resp, s, effs) => exact ⟨resp.headers, rfl⟩
  | .error () => exact ⟨jsonCT, rfl⟩

/-! ### Claims -/

/-- C2: every response produced by the router's fetch function — the
OPTIONS short-circuit, successful handler responses, handler-reported
error responses, and the catch path — carries the headers
`Access-Control-Allow-Origin: *`,
`Access-Control-Allow-Methods: GET, POST, OPTIONS` and
`Access-Control-Allow-Headers: Content-Type`, with exactly those
values. -/
theorem cors_headers_on_every_response (req : Req) (ext : Ext) (store : Store) :
    getHeader (fetch req ext store).1.headers "Access-Control-Allow-Origin" = some "*" ∧
    getHeader (fetch req ext store).1.headers "Access-Control-Allow-Methods" =
      some "GET, POST, OPTIONS" ∧
    getHeader (fetch req ext store).1.headers "Access-Control-Allow-Headers" =
      some "Content-Type" := by
  unfold fetch
  split
  · exact ⟨rfl, rfl, rfl⟩
  · obtain ⟨hs, hh⟩ := applyCors_headers_shape (routed req ext store) store
    rw [hh]
    exact ⟨getHeader_withCors_origin hs, getHeader_withCors_methods hs,
           getHeader_withCors_allowed hs⟩

/-- C3: any exception a handler raises (in scope: the JSON-parse failure
of a malformed POST /api/documents body) is caught at the router
boundary and becomes status 500 with body
`\x7b"error": "Internal server error"\x7d`; no exception detail reaches the
client and a response is always produced. -/
theorem router_catches_handler_exceptions :
    (∀ (req : Req) (ext : Ext) (store : Store), req.method ≠ "OPTIONS" →
      routed req ext store = .error () →
      fetch req ext store =
        ({ status := 500, headers := withCors jsonCT,
           body := .jsonError "Internal server error" }, store, [])) ∧
    (∀ (ext : Ext) (store : Store) (qs : List (String × String)),
      handleDocuments { method := "POST", path := "/api/documents", query := qs,
                        jsonBody := none } ext store = .error ()) ∧
    (∀ (ext : Ext) (store : Store) (qs : List (String × String)),
      fetch { method := "POST", path := "/api/documents", query := qs,
              jsonBody := none } ext store =
        ({ status := 500, headers := withCors jsonCT,
           body := .jsonError "Internal server error" }, store, [])) := by
  refine ⟨fun req ext store hm he => ?_, fun ext store qs => ?_, fun ext store qs => ?_⟩
  · unfold fetch
    rw [if_neg hm, he]
    rfl
  · simp [handleDocuments]
  · simp [fetch, routed, applyCors, handleDocuments, strStartsWith, strStartsWith.strStartsWithGo]

/-- C3 witness: the malformed-body creation request at concrete inputs. -/
theorem router_catches_handler_exceptions_witness :
    fetch { method := "POST", path := "/api/documents", query := [], jsonBody := none }
        ⟨none, "u1", 0, []⟩ ⟨[], []⟩ =
      ({ status := 500, headers := withCors jsonCT,
         body := .jsonError "Internal server error" }, ⟨[], []⟩, []) :=
  router_catches_handler_exceptions.2.2 ⟨none, "u1", 0, []⟩ ⟨[], []⟩ []

/-- C4: the router's dispatch: OPTIONS short-circuits with 200 and an
empty body, touching no handler and no store; otherwise a path with
prefix `/api/documents` goes to the Document Handler; otherwise the
exact path `/api/search` goes to the Search Handler; every other path
yields 404 Not Found with a plain-text body. -/
theorem router_dispatch (req : Req) (ext : Ext) (store : Store) :
    (req.method = "OPTIONS" →
      fetch req ext store =
        ({ status := 200, headers := corsHeaders, body := .empty }, store, [])) ∧
    (req.method ≠ "OPTIONS" → strStartsWith req.path "/api/documents" = true →
      fetch req ext store = applyCors (handleDocuments req ext store) store) ∧
    (req.method ≠ "OPTIONS" → strStartsWith req.path "/api/documents" = false →
      req.path = "/api/search" →
      fetch req ext store = applyCors (handleSearch req ext store) store) ∧
    (req.method ≠ "OPTIONS" → strStartsWith req.path "/api/documents" = false →
      req.path ≠ "/api/search" →
      fetch req ext store =
        ({ status := 404, headers := withCors textCT, body := .text "Not Found" },
         store, [])) := by
  refine ⟨fun hm => ?_, fun hm hp => ?_, fun hm hp hs => ?_, fun hm hp hs => ?_⟩
  · unfold fetch
    rw [if_pos hm]
  · unfold fetch routed
    rw [if_neg hm, if_pos hp]
  · unfold fetch routed
    rw [if_neg hm]
    rw [if_neg (by simp [hp]), if_pos hs]
  · unfold fetch routed
    rw [if_neg hm]
    rw [if_neg (by simp [hp]), if_neg hs]
    rfl

/-- C4 witness: the four dispatch branches at concrete requests. -/
theorem router_dispatch_witness :
    (fetch { method := "OPTIONS", path := "/x", query := [], jsonBody := none }
        ⟨none, "u", 0, []⟩ ⟨[], []⟩ =
      ({ status := 200, headers := corsHeaders, body := .empty }, ⟨[], []⟩, [])) ∧
    (fetch { method := "GET", path := "/nope", query := [], jsonBody := none }
        ⟨none, "u", 0, []⟩ ⟨[], []⟩ =
      ({ status := 404, headers := withCors textCT, body := .text "Not Found" },
       ⟨[], []⟩, [])) := by
  constructor
  · exact (router_dispatch { method := "OPTIONS", path := "/x", query := [], jsonBody := none }
      ⟨none, "u", 0, []⟩ ⟨[], []⟩).1 rfl
  · exact (router_dispatch { method := "GET", path := "/nope", query := [], jsonBody := none }
      ⟨none, "u", 0, []⟩ ⟨[], []⟩).2.2.2 (by decide) (by decide) (by decide)

/-- C1: for a creation request whose embedding reply carries no usable
vector, the handler returns 500 with body
`\x7b"error": "Failed to generate embedding"\x7d` and performs no persistent
write (both stores unchanged, no upsert and no insert issued); on the
success path the vector upsert is issued before the relational
insert. -/
theorem create_embedding_failure_atomicity (ext : Ext) (store : Store)
    (qs : List (String × String)) (title content : String) :
    (embedFailed ext.aiData →
      handleDocuments ⟨"POST", "/api/documents", qs, some (title, content)⟩ ext store =
        .ok ({ status := 500, headers := jsonCT,
               body := .jsonError "Failed to generate embedding" }, store,
             [.aiRun aiModel content])) ∧
    (∀ v rest, ext.aiData = some (v :: rest) →
      effectsOf (handleDocuments ⟨"POST", "/api/documents", qs,
          some (title, content)⟩ ext store) =
        [.aiRun aiModel content, .vecUpsert ext.freshId v title,
         .dbInsert ⟨ext.freshId, title, content, ext.freshId, ext.now⟩]) := by
  constructor
  · intro h
    simp only [handleDocuments]
    rw [if_pos (by decide)]
    rcases h with h | h <;> rw [h]
  · intro v rest h
    simp only [handleDocuments]
    rw [if_pos (by decide)]
    simp [h, effectsOf]

/-- C1 witness: both branches at concrete inputs. -/
theorem create_embedding_failure_atomicity_witness :
    (handleDocuments ⟨"POST", "/api/documents", [], some ("T", "hello")⟩
        ⟨none, "u1", 7, []⟩ ⟨[], []⟩ =
      .ok ({ status := 500, headers := jsonCT,
             body := .jsonError "Failed to generate embedding" }, ⟨[], []⟩,
           [.aiRun aiModel "hello"])) ∧
    (effectsOf (handleDocuments ⟨"POST", "/api/documents", [], some ("T", "hello")⟩
        ⟨some [[1, 2]], "u1", 7, []⟩ ⟨[], []⟩) =
      [.aiRun aiModel "hello", .vecUpsert "u1" [1, 2] "T",
       .dbInsert ⟨"u1", "T", "hello", "u1", 7⟩]) := by
  constructor
  · exact (create_embedding_failure_atomicity ⟨none, "u1", 7, []⟩ ⟨[], []⟩ []
      "T" "hello").1 (Or.inl rfl)
  · exact (create_embedding_failure_atomicity ⟨some [[1, 2]], "u1", 7, []⟩ ⟨[], []⟩ []
      "T" "hello").2 [1, 2] [] rfl

/-- C5: a successful creation returns 200 with `\x7bid, title, content\x7d`
under one fresh server-side id, and performs exactly one vector upsert
and one relational insert, both keyed by that id; the stored row's
`vector_id` equals its `id`, which is also the vector entry's id. -/
theorem create_success_one_vector_per_document (ext : Ext) (store : Store)
    (qs : List (String × String)) (title content : String) (v : List Int)
    (rest : List (List Int)) (hai : ext.aiData = some (v :: rest)) :
    handleDocuments ⟨"POST", "/api/documents", qs, some (title, content)⟩ ext store =
      .ok ({ status := 200, headers := jsonCT, body := .jsonDoc ext.freshId title content },
           ⟨store.vectors ++ [⟨ext.freshId, v, title⟩],
            store.rows ++ [⟨ext.freshId, title, content, ext.freshId, ext.now⟩]⟩,
           [.aiRun aiModel content, .vecUpsert ext.freshId v title,
            .dbInsert ⟨ext.freshId, title, content, ext.freshId, ext.now⟩]) ∧
    (⟨ext.freshId, title, content, ext.freshId, ext.now⟩ : Row).vector_id =
      (⟨ext.freshId, title, content, ext.freshId, ext.now⟩ : Row).id ∧
    (⟨ext.freshId, v, title⟩ : VecEntry).id =
      (⟨ext.freshId, title, content, ext.freshId, ext.now⟩ : Row).id := by
  refine ⟨?_, rfl, rfl⟩
  simp only [handleDocuments]
  rw [if_pos (by decide)]
  simp [hai]

/-- C5 witness: a concrete successful creation. -/
theorem create_success_one_vector_per_document_witness :
    handleDocuments ⟨"POST", "/api/documents", [], some ("T", "hello")⟩
        ⟨some [[1, 2]], "u1", 7, []⟩ ⟨[], []⟩ =
      .ok ({ status := 200, headers := jsonCT, body := .jsonDoc "u1" "T" "hello" },
           ⟨[⟨"u1", [1, 2], "T"⟩], [⟨"u1", "T", "hello", "u1", 7⟩]⟩,
           [.aiRun aiModel "hello", .vecUpsert "u1" [1, 2] "T",
            .dbInsert ⟨"u1", "T", "hello", "u1", 7⟩]) :=
  (create_success_one_vector_per_document ⟨some [[1, 2]], "u1", 7, []⟩ ⟨[], []⟩ []
    "T" "hello" [1, 2] [] rfl).1

/-- C6: GET /api/documents returns 200 with a `documents` listing of at
most 50 entries, each the `\x7bid, title, created\x7d` projection of a stored
row (content omitted), ordered by `created` descending; with N ≤ 50
stored rows the listing has exactly N entries. -/
theorem listing_bounded_and_sorted (ext : Ext) (store : Store)
    (qs : List (String × String)) (jb : Option (String × String)) :
    handleDocuments ⟨"GET", "/api/documents", qs, jb⟩ ext store =
      .ok ({ status := 200, headers := jsonCT, body := .jsonDocList (listDocs store.rows) },
           store, [.dbList]) ∧
    (listDocs store.rows).length = min store.rows.length 50 ∧
    (store.rows.length ≤ 50 → (listDocs store.rows).length = store.rows.length) ∧
    List.Pairwise (fun a b : DocSummary => b.created ≤ a.created) (listDocs store.rows) ∧
    (∀ d ∈ listDocs store.rows, ∃ r ∈ store.rows, d = toSummary r) := by
  refine ⟨?_, ?_, ?_, ?_, ?_⟩
  · simp only [handleDocuments]
    rw [if_neg (by decide), if_neg (by decide), if_pos (by decide)]
  · simp only [listDocs, List.length_map, List.length_take, List.length_insertionSort]
    exact Nat.min_comm _ _
  · intro h
    simp only [listDocs, List.length_map, List.length_take, List.length_insertionSort]
    exact Nat.min_eq_right h
  · have hs : List.Sorted byCreatedDesc (List.insertionSort byCreatedDesc store.rows) :=
      List.sorted_insertionSort byCreatedDesc store.rows
    have ht : List.Pairwise byCreatedDesc
        ((List.insertionSort byCreatedDesc store.rows).take 50) :=
      List.Pairwise.sublist (List.take_sublist _ _) hs
    exact List.pairwise_map.mpr ht
  · intro d hd
    simp only [listDocs] at hd
    obtain ⟨r, hr, hrd⟩ := List.mem_map.mp hd
    refine ⟨r, ?_, hrd.symm⟩
    have hmem : r ∈ List.insertionSort byCreatedDesc store.rows :=
      List.Sublist.mem hr (List.take_sublist 50 _)
    exact ((List.perm_insertionSort byCreatedDesc store.rows).mem_iff).mp hmem

/-- C6 witness: a three-row store lists exactly three summaries, newest
first. -/
theorem listing_bounded_and_sorted_witness :
    (listDocs [⟨"a", "A", "ca", "a", 1⟩, ⟨"b", "B", "cb", "b", 3⟩,
               ⟨"c", "C", "cc", "c", 2⟩]).length = 3 :=
  (listing_bounded_and_sorted ⟨none, "u", 0, []⟩
    ⟨[], [⟨"a", "A", "ca", "a", 1⟩, ⟨"b", "B", "cb", "b", 3⟩, ⟨"c", "C", "cc", "c", 2⟩]⟩
    [] none).2.2.1 (by decide)

/-- C7: a search request with `q` present and a usable embedding queries
the vector index with `topK = min(limit, 20)`, where `limit` is the
parsed integer value of the limit parameter, defaulting to 10 when the
parameter is absent; hence for any parsed limit the shaped result list
has at most 20 entries. -/
theorem search_topk_capped (ext : Ext) (store : Store) (qs : List (String × String))
    (jb : Option (String × String)) (q : String) (v : List Int) (rest : List (List Int))
    (hq : getParam qs "q" = some q) (hne : q ≠ "") (hai : ext.aiData = some (v :: rest)) :
    handleSearch ⟨"GET", "/api/search", qs, jb⟩ ext store =
      .ok ({ status := 200, headers := jsonCT,
             body := .jsonSearch q (formatResults (vectorizeQuery ext.ranking (searchTopK qs))) },
           store, [.aiRun aiModel q, .vecQuery v (searchTopK qs)]) ∧
    (∀ n : Int, jsParseInt (limitRaw qs) = some n → searchTopK qs = some (min n 20)) ∧
    (getParam qs "limit" = none → searchTopK qs = some 10) ∧
    (∀ n : Int, jsParseInt (limitRaw qs) = some n →
      (formatResults (vectorizeQuery ext.ranking (searchTopK qs))).length ≤ 20) := by
  refine ⟨?_, ?_, ?_, ?_⟩
  · simp only [handleSearch]
    rw [if_neg (show ¬(("GET" : String) ≠ "GET") from fun hc => hc rfl)]
    simp only [hq]
    rw [if_neg hne]
    simp only [hai]
  · intro n hn
    simp [searchTopK, hn]
  · intro h
    have hlr : limitRaw qs = "10" := by simp [limitRaw, h]
    unfold searchTopK
    rw [hlr]
    decide
  · intro n hn
    have hst : searchTopK qs = some (min n 20) := by simp [searchTopK, hn]
    rw [hst]
    simp only [formatResults, vectorizeQuery, List.length_map]
    calc (ext.ranking.take (min n 20).toNat).length
        ≤ (min n 20).toNat := List.length_take_le _ _
      _ ≤ (20 : Int).toNat := Int.toNat_le_toNat (min_le_right _ _)
      _ = 20 := rfl

/-- C7 witness: `q=hello&limit=100` with a two-match ranking: at most 20
results, and the query asks for `min(100, 20) = 20`. -/
theorem search_topk_capped_witness :
    (formatResults (vectorizeQuery [⟨"a", 1, some "t"⟩, ⟨"b", 2, none⟩]
        (searchTopK [("q", "hello"), ("limit", "100")]))).length ≤ 20 :=
  (search_topk_capped ⟨some [[1]], "u", 0, [⟨"a", 1, some "t"⟩, ⟨"b", 2, none⟩]⟩ ⟨[], []⟩
    [("q", "hello"), ("limit", "100")] none "hello" [1] []
    (by decide) (by decide) rfl).2.2.2 100 (by decide)

/-- C8: a GET /api/search request with the `q` parameter absent yields
400 with `\x7b"error": "Missing query parameter"\x7d` and an empty effect
trace — in particular, the embedding provider is never invoked. -/
theorem search_missing_q_no_ai_call (ext : Ext) (store : Store)
    (qs : List (String × String)) (jb : Option (String × String))
    (hq : getParam qs "q" = none) :
    handleSearch ⟨"GET", "/api/search", qs, jb⟩ ext store =
      .ok ({ status := 400, headers := jsonCT, body := .jsonError "Missing query parameter" },
           store, []) := by
  simp only [handleSearch]
  rw [if_neg (by decide), hq]

/-- C8 witness: a concrete request with no query parameters. -/
theorem search_missing_q_no_ai_call_witness :
    handleSearch ⟨"GET", "/api/search", [("limit", "3")], none⟩ ⟨some [[1]], "u", 0, []⟩ ⟨[], []⟩ =
      .ok ({ status := 400, headers := jsonCT, body := .jsonError "Missing query parameter" },
           ⟨[], []⟩, []) :=
  search_missing_q_no_ai_call ⟨some [[1]], "u", 0, []⟩ ⟨[], []⟩ [("limit", "3")] none rfl

/-- C9: with `q` present and a usable embedding, a present, non-empty
limit parameter that does not parse (parseInt yields NaN) makes the
handler pass `topK = NaN` (not the default 10) to the vector index,
since `Math.min(NaN, 20)` is NaN; the default 10 is passed exactly when
the parameter is absent or the empty string. -/
theorem search_limit_nan_passthrough (ext : Ext) (store : Store)
    (qs : List (String × String)) (jb : Option (String × String)) (q : String)
    (v : List Int) (rest : List (List Int))
    (hq : getParam qs "q" = some q) (hne : q ≠ "") (hai : ext.aiData = some (v :: rest)) :
    (∀ s, getParam qs "limit" = some s → s ≠ "" → jsParseInt s = none →
      effectsOf (handleSearch ⟨"GET", "/api/search", qs, jb⟩ ext store) =
        [.aiRun aiModel q, .vecQuery v none]) ∧
    ((getParam qs "limit" = none ∨ getParam qs "limit" = some "") →
      effectsOf (handleSearch ⟨"GET", "/api/search", qs, jb⟩ ext store) =
        [.aiRun aiModel q, .vecQuery v (some 10)]) ∧
    jsParseInt "abc" = none := by
  refine ⟨?_, ?_, by decide⟩
  · intro s hs hsne hparse
    have hlr : limitRaw qs = s := by simp [limitRaw, hs, hsne]
    have hst : searchTopK qs = none := by simp [searchTopK, hlr, hparse]
    simp only [handleSearch]
    rw [if_neg (show ¬(("GET" : String) ≠ "GET") from fun hc => hc rfl)]
    simp only [hq]
    rw [if_neg hne]
    simp only [hai]
    simp [effectsOf, hst]
  · intro h
    have hlr : limitRaw qs = "10" := by
      rcases h with h | h <;> simp [limitRaw, h]
    have hst : searchTopK qs = some 10 := by
      unfold searchTopK
      rw [hlr]
      decide
    simp only [handleSearch]
    rw [if_neg (show ¬(("GET" : String) ≠ "GET") from fun hc => hc rfl)]
    simp only [hq]
    rw [if_neg hne]
    simp only [hai]
    simp [effectsOf, hst]

/-- C9 witness: `limit=abc` passes NaN; an absent limit passes 10. -/
theorem search_limit_nan_passthrough_witness :
    (effectsOf (handleSearch ⟨"GET", "/api/search", [("q", "hello"), ("limit", "abc")], none⟩
        ⟨some [[1]], "u", 0, []⟩ ⟨[], []⟩) =
      [.aiRun aiModel "hello", .vecQuery [1] none]) ∧
    (effectsOf (handleSearch ⟨"GET", "/api/search", [("q", "hello")], none⟩
        ⟨some [[1]], "u", 0, []⟩ ⟨[], []⟩) =
      [.aiRun aiModel "hello", .vecQuery [1] (some 10)]) := by
  constructor
  · exact (search_limit_nan_passthrough ⟨some [[1]], "u", 0, []⟩ ⟨[], []⟩
      [("q", "hello"), ("limit", "abc")] none "hello" [1] []
      (by decide) (by decide) rfl).1 "abc" (by decide) (by decide) (by decide)
  · exact (search_limit_nan_passthrough ⟨some [[1]], "u", 0, []⟩ ⟨[], []⟩
      [("q", "hello")] none "hello" [1] []
      (by decide) (by decide) rfl).2.1 (Or.inl (by decide))

/-- C10: on GET under /api/documents/ the id looked up is exactly the
third slash-separated segment: the trailing-slash path looks up the
empty id and (no stored row has an empty id) returns 404 rather than
the listing, and segments after the id are ignored. -/
theorem get_by_id_uses_third_segment (ext : Ext) (store : Store)
    (qs : List (String × String)) (jb : Option (String × String)) :
    (∀ p : String, strStartsWith p "/api/documents/" = true →
      effectsOf (handleDocuments ⟨"GET", p, qs, jb⟩ ext store) =
        [.dbSelectById ((pathParts p).getD 3 "")]) ∧
    ((∀ r ∈ store.rows, r.id ≠ "") →
      handleDocuments ⟨"GET", "/api/documents/", qs, jb⟩ ext store =
        .ok ({ status := 404, headers := textCT, body := .text "Not Found" }, store,
             [.dbSelectById ""])) ∧
    effectsOf (handleDocuments ⟨"GET", "/api/documents/x/y", qs, jb⟩ ext store) =
      [.dbSelectById "x"] := by
  refine ⟨?_, ?_, ?_⟩
  · intro p hp
    cases hfd : store.rows.find? (fun r => r.id = (pathParts p).getD 3 "") <;>
      simp [handleDocuments, hp, hfd, effectsOf, -List.getD_eq_getElem?_getD]
  · intro h
    have hid : (pathParts "/api/documents/").getD 3 "" = "" := by decide
    simp only [handleDocuments]
    rw [if_neg (by decide), if_pos (by decide)]
    have hfd : store.rows.find?
        (fun r => r.id = (pathParts "/api/documents/").getD 3 "") = none := by
      rw [List.find?_eq_none]
      intro r hr
      simp only [decide_eq_true_eq]
      rw [hid]
      exact h r hr
    rw [hfd, hid]
  · simp only [handleDocuments]
    rw [if_neg (by decide), if_pos (by decide)]
    cases hfd : store.rows.find? (fun r => r.id = (pathParts "/api/documents/x/y").getD 3 "") <;>
      simp [hfd, effectsOf, -List.getD_eq_getElem?_getD] <;> decide

/-- C10 witness: concrete paths at a one-row store with a non-empty
id. -/
theorem get_by_id_uses_third_segment_witness :
    (effectsOf (handleDocuments ⟨"GET", "/api/documents/abc", [], none⟩
        ⟨none, "u", 0, []⟩ ⟨[], [⟨"a", "A", "ca", "a", 1⟩]⟩) =
      [.dbSelectById "abc"]) ∧
    (handleDocuments ⟨"GET", "/api/documents/", [], none⟩
        ⟨none, "u", 0, []⟩ ⟨[], [⟨"a", "A", "ca", "a", 1⟩]⟩ =
      .ok ({ status := 404, headers := textCT, body := .text "Not Found" },
           ⟨[], [⟨"a", "A", "ca", "a", 1⟩]⟩, [.dbSelectById ""])) := by
  constructor
  · have h := (get_by_id_uses_third_segment ⟨none, "u", 0, []⟩
      ⟨[], [⟨"a", "A", "ca", "a", 1⟩]⟩ [] none).1 "/api/documents/abc" (by decide)
    simpa using h
  · exact (get_by_id_uses_third_segment ⟨none, "u", 0, []⟩
      ⟨[], [⟨"a", "A", "ca", "a", 1⟩]⟩ [] none).2.1 (by decide)

end Zhenren
